import Mathlib

/-!
Verification development for the web authentication and session layer of the
daily_stock_analysis repository (src/web/auth.py, src/web/session.py,
src/web/router.py, src/web/handlers.py, src/src/user_service.py).

Time is modelled in whole seconds as `Nat`.  The in-memory session dict of
`SessionManager` is modelled as an association list keyed by the session
token.  Library collaborators that are not repository code (base64 decoding
plus UTF-8 decoding, and the SHA-256 password hash comparison) are abstracted
as function parameters carried in the environment: a `none` result of the
base64 decoder models the Python exception path that `parse_basic_auth`
catches, and `verify_password` is an opaque boolean predicate on
(plaintext, stored hash).
-/

namespace DSA

/-- A row of the `users` table (src/src/models.py, class User).  Timestamps and
the relationship column are omitted; they play no role in authentication. -/
structure User where
  id : Int
  username : String
  password_hash : String
  enabled : Bool
  is_admin : Bool
  can_custom_task : Bool
deriving Repr, DecidableEq

/-- The resolved identity dict handed to handlers:
`{'user_id': ..., 'username': ..., 'is_admin': ...}`. -/
structure Identity where
  user_id : Int
  username : String
  is_admin : Bool
deriving Repr, DecidableEq

/-- One entry of `SessionManager._sessions` (src/web/session.py). -/
structure Session where
  user_id : Int
  username : String
  is_admin : Bool
  created_at : Nat
  last_access : Nat
deriving Repr, DecidableEq

/-- The in-memory session table `SessionManager._sessions`, keyed by token. -/
abbrev Store := List (String × Session)

/-- `SessionManager._session_timeout = timedelta(hours=24)`, in seconds. -/
def ttl : Nat := 86400

/-- Dict lookup `self._sessions[sid]` / `sid in self._sessions`. -/
def lookupSession : Store → String → Option Session
  | [], _ => none
  | (k, v) :: rest, sid => if k = sid then some v else lookupSession rest sid

/-- Dict deletion `del self._sessions[sid]` (no-op when the key is absent,
matching the guarded deletes in the source). -/
def eraseSession : Store → String → Store
  | [], _ => []
  | (k, v) :: rest, sid =>
      if k = sid then eraseSession rest sid else (k, v) :: eraseSession rest sid

/-- Dict assignment `self._sessions[sid] = s`. -/
def setSession (st : Store) (sid : String) (s : Session) : Store :=
  (sid, s) :: eraseSession st sid

/-- `SessionManager.create_session` (src/web/session.py lines 33-54).  The
randomly generated `secrets.token_urlsafe(32)` token is passed in as `tok`. -/
def create_session (st : Store) (tok : String) (uid : Int) (uname : String)
    (adm : Bool) (now : Nat) : Store :=
  setSession st tok
    { user_id := uid, username := uname, is_admin := adm,
      created_at := now, last_access := now }

/-- `SessionManager.get_session` (src/web/session.py lines 56-79): absent for
an empty or unknown token; lazy purge plus absent when
`now - last_access > timeout`; otherwise sliding renewal of `last_access`.
Returns the result together with the updated store. -/
def get_session (st : Store) (now : Nat) (sid : String) :
    Option Session × Store :=
  if sid = "" then (none, st)
  else
    match lookupSession st sid with
    | none => (none, st)
    | some s =>
        if ttl < now - s.last_access then (none, eraseSession st sid)
        else
          let s2 := { s with last_access := now }
          (some s2, setSession st sid s2)

/-- `SessionManager.delete_session` (src/web/session.py lines 81-85). -/
def delete_session (st : Store) (sid : String) : Store :=
  eraseSession st sid

/-- Python `str.split(sep)` for a one-character separator, on character
lists; `[[]]` on the empty string, empty parts preserved. -/
def py_split (sep : Char) : List Char → List (List Char)
  | [] => [[]]
  | c :: rest =>
      if c = sep then [] :: py_split sep rest
      else
        match py_split sep rest with
        | [] => [[c]]
        | g :: gs => (c :: g) :: gs

/-- The whitespace test of Python `str.strip()` (ASCII range). -/
def py_isspace (c : Char) : Bool :=
  c = ' ' || c = '\t' || c = '\n' || c = '\x0d' || c = '\x0b' || c = '\x0c'

/-- Python `str.strip()` on character lists. -/
def py_strip (l : List Char) : List Char :=
  ((l.dropWhile py_isspace).reverse.dropWhile py_isspace).reverse

/-- Splitting at the first occurrence of `sep`: `some (before, after)` when
`sep` occurs, `none` otherwise.  Models Python `s.split(sep, 1)` followed by
a two-element tuple unpack (which raises, hence `none`, when `sep` is
absent). -/
def break_at (sep : Char) : List Char → Option (List Char × List Char)
  | [] => none
  | c :: rest =>
      if c = sep then some ([], rest)
      else
        match break_at sep rest with
        | none => none
        | some (a, b) => some (c :: a, b)

/-- The loop body of `SessionManager._parse_cookie`: strip each `;`-separated
part and return the remainder of the first part starting with `key=`. -/
def parse_cookie_parts (key : List Char) : List (List Char) → Option (List Char)
  | [] => none
  | c :: rest =>
      let c2 := py_strip c
      if (key ++ ['=']).isPrefixOf c2 then some (c2.drop (key.length + 1))
      else parse_cookie_parts key rest

/-- `SessionManager._parse_cookie` (src/web/session.py lines 123-133): `None`
on an empty header, else scan the `;`-separated parts. -/
def parse_cookie (cookie_header key : String) : Option String :=
  if cookie_header = "" then none
  else
    (parse_cookie_parts key.toList (py_split ';' cookie_header.toList)).map
      String.mk

/-- `SessionManager.get_session_from_request` (src/web/session.py lines
87-104): read the `session_id` cookie, treat an absent or empty value as no
session, otherwise look the token up. -/
def get_session_from_request (st : Store) (now : Nat) (cookie_header : String) :
    Option Session × Store :=
  match parse_cookie cookie_header "session_id" with
  | none => (none, st)
  | some sid => if sid = "" then (none, st) else get_session st now sid

/-- The `Set-Cookie` value emitted by `SessionManager.set_session_cookie`. -/
def set_cookie_value (sid : String) : String :=
  "session_id=" ++ sid ++ "; Path=/; HttpOnly; Max-Age=86400"

/-- The clearing `Set-Cookie` value of `SessionManager.clear_session_cookie`. -/
def clear_cookie_value : String :=
  "session_id=; Path=/; HttpOnly; Max-Age=0"

/-- The configuration and external collaborators seen by `WebAuth`
(src/web/auth.py) and `UserService` (src/src/user_service.py): the `users`
table, the configured legacy credential pair (`config.webui_username`,
`config.webui_password`, with the empty string standing for an unset value),
the abstracted password-hash check, and the abstracted composition of
`base64.b64decode` with UTF-8 decoding (`none` = exception). -/
structure Env where
  users : List User
  webui_username : String
  webui_password : String
  verify_password : String → String → Bool
  b64decode : String → Option String

/-- `UserService.get_user(username=...)`: the unique row matching `username`. -/
def find_user (users : List User) (username : String) : Option User :=
  users.find? (fun u => u.username = username)

/-- `UserService.verify_user` (src/src/user_service.py lines 217-242): absent
when the username is unknown, the account is disabled, or the password does
not verify against the stored hash. -/
def verify_user (env : Env) (username password : String) : Option User :=
  match find_user env.users username with
  | none => none
  | some u =>
      if u.enabled = false then none
      else if env.verify_password password u.password_hash = false then none
      else some u

/-- `WebAuth._is_legacy_auth_enabled` (src/web/auth.py lines 43-47):
`bool(username and password)` on the configured legacy pair. -/
def legacy_enabled (env : Env) : Bool :=
  decide (env.webui_username ≠ "") && decide (env.webui_password ≠ "")

/-- `WebAuth.enabled` (src/web/auth.py lines 49-57): some user exists
(`list_users(include_disabled=True)` nonempty) or the legacy credential is
configured. -/
def enabled (env : Env) : Bool :=
  !env.users.isEmpty || legacy_enabled env

/-- `WebAuth.verify_credentials` (src/web/auth.py lines 59-88): multi-user
verification first, then the legacy shared credential fallback that yields the
synthetic admin identity with `user_id = 0`. -/
def verify_credentials (env : Env) (username password : String) :
    Option Identity :=
  match verify_user env username password with
  | some u =>
      some { user_id := u.id, username := u.username, is_admin := u.is_admin }
  | none =>
      if legacy_enabled env then
        if username = env.webui_username && password = env.webui_password then
          some { user_id := 0, username := username, is_admin := true }
        else none
      else none

/-- `WebAuth.parse_basic_auth` (src/web/auth.py lines 90-113): absent unless
the header starts with `Basic `; base64/UTF-8 decoding failure and a missing
colon both fall into the `except` branch and yield absent; otherwise split on
the first colon (`decoded.split(chr 58, 1)`). -/
def parse_basic_auth (env : Env) (auth_header : String) :
    Option (String × String) :=
  if auth_header = "" || !("Basic ".toList.isPrefixOf auth_header.toList) then
    none
  else
    match env.b64decode (String.mk (auth_header.toList.drop 6)) with
    | none => none
    | some decoded =>
        match break_at ':' decoded.toList with
        | none => none
        | some (u, p) => some (String.mk u, String.mk p)

/-- The two request headers `check_auth` reads, with `headers.get(_, "")`
semantics: the empty string stands for an absent header. -/
structure Request where
  cookie : String
  authorization : String

/-- Result of one `WebAuth.check_auth` call: the resolved identity (absent =
unauthenticated), the session store after the call, and the `Set-Cookie`
header value emitted through the request handler, if any. -/
structure AuthResult where
  identity : Option Identity
  store : Store
  set_cookie : Option String
deriving DecidableEq

/-- `WebAuth.check_auth` (src/web/auth.py lines 115-154).  `tok` is the fresh
random token that `create_session` would generate on the Basic-Auth promotion
path. -/
def check_auth (env : Env) (st : Store) (now : Nat) (tok : String)
    (req : Request) : AuthResult :=
  if enabled env = false then
    { identity := some { user_id := 0, username := "guest", is_admin := false },
      store := st, set_cookie := none }
  else
    let sres := get_session_from_request st now req.cookie
    match sres.1 with
    | some s =>
        { identity := some
            { user_id := s.user_id, username := s.username,
              is_admin := s.is_admin },
          store := sres.2, set_cookie := none }
    | none =>
        match parse_basic_auth env req.authorization with
        | none => { identity := none, store := sres.2, set_cookie := none }
        | some (u, p) =>
            match verify_credentials env u p with
            | none => { identity := none, store := sres.2, set_cookie := none }
            | some info =>
                { identity := some info,
                  store := create_session sres.2 tok info.user_id
                    info.username info.is_admin now,
                  set_cookie := some (set_cookie_value tok) }

/-- `WebAuth.logout` (src/web/auth.py lines 180-189): resolve the session from
the request (with `get_session`'s purge/renewal side effects), delete the
store entry named by the cookie when a session was found, and always emit the
clearing cookie. -/
def logout (st : Store) (now : Nat) (cookie_header : String) : Store × String :=
  let sres := get_session_from_request st now cookie_header
  let st2 :=
    match sres.1 with
    | some _ =>
        match parse_cookie cookie_header "session_id" with
        | some sid => if sid = "" then sres.2 else delete_session sres.2 sid
        | none => sres.2
    | none => sres.2
  (st2, clear_cookie_value)

/-- The authentication-relevant outcome of one router dispatch, before any
route handler body runs.  `json` carries the status plus the `success`,
`error` and `login_url` fields of a `JsonResponse` body; `routed` means the
request passed the gate and proceeds to route matching, carrying the resolved
identity (`none` when authentication is disabled and no check ran). -/
inductive Outcome where
  | publicRoute
  | json (status : Nat) (success : Bool) (error : String)
      (login_url : Option String)
  | redirect (status : Nat) (location : String)
  | challenge (status : Nat) (www_authenticate : String)
  | routed (i : Option Identity)
  | botWebhook (platform : String)
  | notFound
deriving Repr, DecidableEq

/-- The GET allowlist in `Router.dispatch` (src/web/router.py line 157). -/
def public_paths_get : List String :=
  ["/health", "/login", "/api/login", "/api/logout"]

/-- `api_paths_json_401` in `Router.dispatch` (src/web/router.py line 187). -/
def api_paths_json_401 : List String := ["/analysis", "/task", "/tasks"]

/-- The `WWW-Authenticate` value sent by `WebAuth.send_auth_required`. -/
def basic_challenge_value : String := "Basic realm=\"Stock Analysis WebUI\""

/-- The authentication phase of `Router.dispatch` for GET requests
(src/web/router.py lines 135-204): allowlist first; if auth is enabled and
`check_auth` fails, choose 401 JSON for the fixed API paths, else a 302
redirect to `/login` when any account (disabled included) exists, else the
401 Basic challenge.  The whole public-path branch (lines 157-179),
including its own route matching, is abstracted as `publicRoute`; the
theorems below are all scoped to non-public paths. -/
def dispatch (env : Env) (st : Store) (now : Nat) (tok : String)
    (req : Request) (path : String) : Outcome × Store :=
  if path ∈ public_paths_get then (.publicRoute, st)
  else if enabled env then
    let r := check_auth env st now tok req
    match r.identity with
    | some i => (.routed (some i), r.store)
    | none =>
        if path ∈ api_paths_json_401 then
          (.json 401 false "需要登录" (some "/login"), r.store)
        else if !env.users.isEmpty then (.redirect 302 "/login", r.store)
        else (.challenge 401 basic_challenge_value, r.store)
  else (.routed none, st)

/-- `path.strip(chr 47)` in `Router._dispatch_bot_webhook`. -/
def strip_slashes (l : List Char) : List Char :=
  ((l.dropWhile (· = '/')).reverse.dropWhile (· = '/')).reverse

/-- Platform extraction in `Router._dispatch_bot_webhook` (src/web/router.py
lines 390-396): `parts = path.strip(chr 47).split(chr 47)`, 404 when fewer
than two parts, else `parts[1]`. -/
def extract_platform (path : String) : Option String :=
  match py_split '/' (strip_slashes path.toList) with
  | _ :: p :: _ => some (String.mk p)
  | _ => none

/-- The POST allowlist in `Router.dispatch_post` (src/web/router.py line 295). -/
def public_paths_post : List String := ["/login", "/api/login", "/api/logout"]

/-- The authentication phase of `Router.dispatch_post` (src/web/router.py
lines 227-372): paths starting with `/bot/` go to the bot-webhook dispatcher
before the allowlist and before any auth check; then the allowlist; then the
auth gate with the redirect-vs-challenge choice (no JSON-401 path set here). -/
def dispatch_post (env : Env) (st : Store) (now : Nat) (tok : String)
    (req : Request) (path : String) : Outcome × Store :=
  if "/bot/".toList.isPrefixOf path.toList then
    match extract_platform path with
    | some p => (.botWebhook p, st)
    | none => (.notFound, st)
  else if path ∈ public_paths_post then (.publicRoute, st)
  else if enabled env then
    let r := check_auth env st now tok req
    match r.identity with
    | some i => (.routed (some i), r.store)
    | none =>
        if !env.users.isEmpty then (.redirect 302 "/login", r.store)
        else (.challenge 401 basic_challenge_value, r.store)
  else (.routed none, st)

/-- `UserHandler._require_admin` (src/web/handlers.py lines 435-445):
`check_auth`, then require `is_admin`; `none` on either failure. -/
def require_admin (env : Env) (st : Store) (now : Nat) (tok : String)
    (req : Request) : Option Identity × Store × Option String :=
  let r := check_auth env st now tok req
  match r.identity with
  | some i => (if i.is_admin then some i else none, r.store, r.set_cookie)
  | none => (none, r.store, r.set_cookie)

/-- `UserHandler.handle_user_manage` (src/web/handlers.py lines 527-538),
up to the admin gate: 403 JSON on failure, else the rendered user-management
page (abstracted to the user list passed to the template). -/
def handle_user_manage (env : Env) (st : Store) (now : Nat) (tok : String)
    (req : Request) : Outcome × Store :=
  let r := require_admin env st now tok req
  match r.1 with
  | none => (.json 403 false "需要管理员权限" none, r.2.1)
  | some _ => (.routed r.1, r.2.1)

/-- The admin gate of `UserHandler.handle_create_user` (src/web/handlers.py
lines 540-547), POST `/api/admin/users`: 403 JSON when `_require_admin`
fails, else the request proceeds to the form handling. -/
def handle_create_user (env : Env) (st : Store) (now : Nat) (tok : String)
    (req : Request) : Outcome × Store :=
  let r := require_admin env st now tok req
  match r.1 with
  | none => (.json 403 false "需要管理员权限" none, r.2.1)
  | some _ => (.routed r.1, r.2.1)

/-! Concrete fixtures used to exercise the theorems on closed inputs. -/

/-- A session row created at time 1000. -/
def fix_session : Session :=
  { user_id := 1, username := "alice", is_admin := false,
    created_at := 1000, last_access := 1000 }

/-- A one-entry session store holding `fix_session` under token `tokA`. -/
def fix_store : Store := [("tokA", fix_session)]

/-- An enabled, non-admin account. -/
def alice : User :=
  { id := 1, username := "alice", password_hash := "h1",
    enabled := true, is_admin := false, can_custom_task := false }

/-- A disabled admin account. -/
def bob_disabled : User :=
  { id := 2, username := "bob", password_hash := "h2",
    enabled := false, is_admin := true, can_custom_task := false }

/-- A password check that accepts exactly (pw1, h1). -/
def fix_verify_password (p h : String) : Bool := p = "pw1" && h = "h1"

/-- A base64+UTF-8 decoder defined on two inputs (the encodings of
`alice:pw1` and of the colon-free payload `nocolon`); everything else
decodes to `none` (the exception path). -/
def fix_b64 (s : String) : Option String :=
  if s = "YWxpY2U6cHcx" then some "alice:pw1"
  else if s = "bm9jb2xvbg==" then some "nocolon"
  else none

/-- Multi-account environment: one enabled account, no legacy credential. -/
def env_multi : Env :=
  { users := [alice], webui_username := "", webui_password := "",
    verify_password := fix_verify_password, b64decode := fix_b64 }

/-- Legacy-only environment: no accounts, shared credential (admin, secret). -/
def env_legacy : Env :=
  { users := [], webui_username := "admin", webui_password := "secret",
    verify_password := fix_verify_password, b64decode := fix_b64 }

/-- Environment whose only account is disabled and with no legacy credential. -/
def env_disabled : Env :=
  { users := [bob_disabled], webui_username := "", webui_password := "",
    verify_password := fun _ _ => true, b64decode := fix_b64 }

/-- Environment with no accounts and no legacy credential: auth disabled. -/
def env_off : Env :=
  { users := [], webui_username := "", webui_password := "",
    verify_password := fix_verify_password, b64decode := fix_b64 }

/-- A request carrying only the session cookie for `tokA`. -/
def req_cookie : Request := { cookie := "session_id=tokA", authorization := "" }

/-- A request carrying only a valid Basic-Auth header for alice. -/
def req_basic : Request :=
  { cookie := "", authorization := "Basic YWxpY2U6cHcx" }

/-- A request with no credentials at all. -/
def req_anon : Request := { cookie := "", authorization := "" }

/-! Shared lemmas on the association-list session table. -/

theorem lookupSession_eraseSession (st : Store) (sid : String) :
    lookupSession (eraseSession st sid) sid = none := by
  induction st with
  | nil => rfl
  | cons kv rest ih =>
      obtain ⟨k, v⟩ := kv
      by_cases h : k = sid
      · simpa [eraseSession, h] using ih
      · simpa [eraseSession, lookupSession, h] using ih

theorem lookupSession_setSession (st : Store) (sid : String) (s : Session) :
    lookupSession (setSession st sid s) sid = some s := by
  simp [setSession, lookupSession]

/-- C4: `SessionManager.get_session` returns absent for an unknown token;
when `now - last_access > TTL` it deletes the entry and returns absent, so a
later lookup of the same token is also absent (purged); otherwise it returns
the session with `last_access` updated to `now`, and after that renewal a
lookup at any time within TTL of the renewal still succeeds, regardless of
the original creation time. -/
theorem get_session_spec (st : Store) (now : Nat) (tok : String) :
    (lookupSession st tok = none → get_session st now tok = (none, st)) ∧
    (∀ s, tok ≠ "" → lookupSession st tok = some s →
      ttl < now - s.last_access →
      get_session st now tok = (none, delete_session st tok) ∧
      ∀ now2, (get_session (delete_session st tok) now2 tok).1 = none) ∧
    (∀ s, tok ≠ "" → lookupSession st tok = some s →
      now - s.last_access ≤ ttl →
      get_session st now tok =
        (some { s with last_access := now },
         setSession st tok { s with last_access := now }) ∧
      ∀ now2, now2 - now ≤ ttl →
        (get_session (setSession st tok { s with last_access := now })
            now2 tok).1 = some { s with last_access := now2 }) := by
  refine ⟨?_, ?_, ?_⟩
  · intro h
    by_cases htok : tok = ""
    · simp [get_session, htok]
    · simp [get_session, htok, h]
  · intro s htok hs hexp
    refine ⟨?_, ?_⟩
    · simp [get_session, htok, hs, hexp, delete_session]
    · intro now2
      simp [get_session, htok, delete_session, lookupSession_eraseSession]
  · intro s htok hs hfresh
    refine ⟨?_, ?_⟩
    · simp [get_session, htok, hs, Nat.not_lt.mpr hfresh]
    · intro now2 h2
      simp [get_session, htok, lookupSession_setSession, Nat.not_lt.mpr h2]

/-- Witness for C4 on `fix_store`: a lookup 1 second past expiry purges the
entry and returns absent, a later lookup of the purged token is absent, and
a lookup 1 second before expiry renews `last_access`, after which a lookup
1 second past the original deadline still succeeds. -/
theorem get_session_spec_witness :
    ("tokA" ≠ "" ∧ lookupSession fix_store "tokA" = some fix_session ∧
      ttl < (1000 + ttl + 1) - fix_session.last_access ∧
      (1000 + ttl - 1) - fix_session.last_access ≤ ttl) ∧
    get_session fix_store (1000 + ttl + 1) "tokA" =
      (none, delete_session fix_store "tokA") ∧
    (get_session (delete_session fix_store "tokA") (1000 + ttl + 2) "tokA").1 =
      none ∧
    get_session fix_store (1000 + ttl - 1) "tokA" =
      (some { fix_session with last_access := 1000 + ttl - 1 },
       setSession fix_store "tokA"
         { fix_session with last_access := 1000 + ttl - 1 }) ∧
    (get_session
        (setSession fix_store "tokA"
          { fix_session with last_access := 1000 + ttl - 1 })
        (1000 + ttl + 1) "tokA").1 =
      some { fix_session with last_access := 1000 + ttl + 1 } := by
  have hexp :=
    (get_session_spec fix_store (1000 + ttl + 1) "tokA").2.1 fix_session
      (by decide) (by decide) (by decide)
  have hfresh :=
    (get_session_spec fix_store (1000 + ttl - 1) "tokA").2.2 fix_session
      (by decide) (by decide) (by decide)
  exact ⟨⟨by decide, by decide, by decide, by decide⟩,
    hexp.1, hexp.2 (1000 + ttl + 2), hfresh.1,
    hfresh.2 (1000 + ttl + 1) (by decide)⟩

/-- C10: `_parse_cookie` scans the `;`-split, whitespace-stripped parts and
returns the remainder after the first `=` of the first part whose name
matches case-sensitively, so the value keeps any later `=` characters;
parts before the match never interfere, a header with no matching part
yields absent, the empty header yields absent, and the concrete multi-cookie
examples decode `session_id` in every position while a case-mismatched name
does not match. -/
theorem parse_cookie_spec :
    (∀ key, parse_cookie "" key = none) ∧
    (∀ (key v : List Char) (ps qs : List (List Char)),
      (∀ p ∈ ps, (key ++ ['=']).isPrefixOf (py_strip p) = false) →
      py_strip (key ++ '=' :: v) = key ++ '=' :: v →
      parse_cookie_parts key (ps ++ (key ++ '=' :: v) :: qs) = some v) ∧
    (∀ (key : List Char) (ps : List (List Char)),
      (∀ p ∈ ps, (key ++ ['=']).isPrefixOf (py_strip p) = false) →
      parse_cookie_parts key ps = none) ∧
    parse_cookie "foo=bar; session_id=XYZ; baz=qux" "session_id" =
      some "XYZ" ∧
    parse_cookie "session_id=XYZ; foo=bar" "session_id" = some "XYZ" ∧
    parse_cookie "foo=bar; baz=qux; session_id=XYZ" "session_id" =
      some "XYZ" ∧
    parse_cookie " foo=bar ;  session_id=a=b" "session_id" = some "a=b" ∧
    parse_cookie "SESSION_ID=XYZ; foo=bar" "session_id" = none := by
  refine ⟨fun key => rfl, ?_, ?_, by decide, by decide, by decide, by decide,
    by decide⟩
  · intro key v ps qs hskip hstrip
    induction ps with
    | nil =>
        have hpre : (key ++ ['=']).isPrefixOf (key ++ '=' :: v) = true := by
          rw [List.isPrefixOf_iff_prefix]
          have : key ++ '=' :: v = (key ++ ['=']) ++ v := by simp
          rw [this]
          exact List.prefix_append _ _
        have hdrop : (key ++ '=' :: v).drop (key.length + 1) = v := by
          have : key ++ '=' :: v = (key ++ ['=']) ++ v := by simp
          rw [this]
          have hlen : (key ++ ['=']).length = key.length + 1 := by simp
          rw [← hlen, List.drop_left]
        simp [parse_cookie_parts, hstrip, hpre, hdrop]
    | cons p ps ih =>
        have hp := hskip p (List.mem_cons_self p ps)
        have ih2 := ih (fun q hq => hskip q (List.mem_cons_of_mem p hq))
        simpa [parse_cookie_parts, hp] using ih2
  · intro key ps hskip
    induction ps with
    | nil => rfl
    | cons p ps ih =>
        have hp := hskip p (List.mem_cons_self p ps)
        have ih2 := ih (fun q hq => hskip q (List.mem_cons_of_mem p hq))
        simpa [parse_cookie_parts, hp] using ih2

/-- Witness for C10: the general match conjunct applied to the parts of
`foo=bar; session_id=XYZ; baz=qux`, yielding `XYZ` with the skipped part
discharged concretely. -/
theorem parse_cookie_spec_witness :
    ((("session_id".toList ++ ['=']).isPrefixOf (py_strip " foo=bar".toList)
        = false) ∧
      py_strip ("session_id".toList ++ '=' :: "X=Z".toList) =
        "session_id".toList ++ '=' :: "X=Z".toList) ∧
    parse_cookie_parts "session_id".toList
      ([" foo=bar".toList] ++
        ("session_id".toList ++ '=' :: "X=Z".toList) :: [" baz=qux".toList]) =
      some "X=Z".toList := by
  refine ⟨⟨by decide, by decide⟩, ?_⟩
  exact parse_cookie_spec.2.1 "session_id".toList "X=Z".toList
    [" foo=bar".toList] [" baz=qux".toList]
    (by intro p hp; simp at hp; subst hp; decide) (by decide)

/-- C8: both header parsers degrade to absent on malformed input instead of
propagating an error: `parse_basic_auth` is absent whenever the header lacks
the `Basic ` prefix, the base64/UTF-8 decoding fails, or the decoded payload
has no colon; `_parse_cookie` is absent on a missing header; and the Auth
Gate turns an absent parse into the Unauthenticated outcome, never an
error. -/
theorem parse_failures_degrade :
    (∀ (env : Env) (h : String),
      ("Basic ".toList.isPrefixOf h.toList) = false →
      parse_basic_auth env h = none) ∧
    (∀ (env : Env) (h : String),
      env.b64decode (String.mk (h.toList.drop 6)) = none →
      parse_basic_auth env h = none) ∧
    (∀ (env : Env) (h d : String),
      env.b64decode (String.mk (h.toList.drop 6)) = some d →
      break_at ':' d.toList = none →
      parse_basic_auth env h = none) ∧
    (∀ key, parse_cookie "" key = none) ∧
    (∀ (env : Env) (st : Store) (now : Nat) (tok : String) (req : Request),
      enabled env = true →
      (get_session_from_request st now req.cookie).1 = none →
      parse_basic_auth env req.authorization = none →
      check_auth env st now tok req =
        { identity := none,
          store := (get_session_from_request st now req.cookie).2,
          set_cookie := none }) := by
  refine ⟨?_, ?_, ?_, fun key => rfl, ?_⟩
  · intro env h hpre
    simp only [parse_basic_auth]
    rw [hpre]
    simp
  · intro env h hdec
    by_cases h0 : h = ""
    · simp [parse_basic_auth, h0]
    · cases hpre : ("Basic ".toList.isPrefixOf h.toList) with
      | false =>
          simp only [parse_basic_auth]
          rw [hpre]
          simp
      | true =>
          simp only [parse_basic_auth]
          rw [hpre, hdec]
          simp [h0]
  · intro env h d hdec hcol
    by_cases h0 : h = ""
    · simp [parse_basic_auth, h0]
    · cases hpre : ("Basic ".toList.isPrefixOf h.toList) with
      | false =>
          simp only [parse_basic_auth]
          rw [hpre]
          simp
      | true =>
          simp only [parse_basic_auth]
          rw [hpre, hdec]
          simp only [String.toList] at hcol
          simp [h0, hcol]
  · intro env st now tok req hen hsess hpb
    simp [check_auth, hen, hsess, hpb]

/-- Witness for C8: the three Basic-Auth failure shapes (no prefix, failing
base64 decode, decoded payload without a colon) and the no-credentials
request all resolve to absent / Unauthenticated on concrete inputs. -/
theorem parse_failures_degrade_witness :
    parse_basic_auth env_multi "Bearer xyz" = none ∧
    parse_basic_auth env_multi "Basic !!notbase64" = none ∧
    parse_basic_auth env_multi "Basic bm9jb2xvbg==" = none ∧
    parse_cookie "" "session_id" = none ∧
    check_auth env_multi [] 5 "f" req_anon =
      { identity := none, store := [], set_cookie := none } := by
  refine ⟨?_, ?_, ?_, parse_failures_degrade.2.2.2.1 "session_id", ?_⟩
  · exact parse_failures_degrade.1 env_multi "Bearer xyz" (by decide)
  · exact parse_failures_degrade.2.1 env_multi "Basic !!notbase64" (by decide)
  · exact parse_failures_degrade.2.2.1 env_multi "Basic bm9jb2xvbg=="
      "nocolon" (by decide) (by decide)
  · exact (parse_failures_degrade.2.2.2.2 env_multi [] 5 "f" req_anon
      (by decide) (by decide) (by decide)).trans (by decide)

theorem get_session_from_request_of_lookup_none (st : Store) (now : Nat)
    (cookie : String)
    (h : ∀ sid, parse_cookie cookie "session_id" = some sid → sid ≠ "" →
      lookupSession st sid = none) :
    get_session_from_request st now cookie = (none, st) := by
  unfold get_session_from_request
  cases hp : parse_cookie cookie "session_id" with
  | none => rfl
  | some sid =>
      by_cases hsid : sid = ""
      · simp [hsid]
      · simp [hsid, get_session, h sid hp hsid]

/-- C9: `WebAuth.logout` always emits the clearing Set-Cookie; after it runs,
the store has no entry under the token named by the request's cookie;
resolving the same cookie afterwards returns absent; and a second logout on
the resulting state is a no-op that again emits the clearing cookie. -/
theorem logout_spec (st : Store) (now now2 : Nat) (cookie : String) :
    (logout st now cookie).2 = clear_cookie_value ∧
    (∀ sid, parse_cookie cookie "session_id" = some sid → sid ≠ "" →
      lookupSession (logout st now cookie).1 sid = none) ∧
    (get_session_from_request (logout st now cookie).1 now2 cookie).1 = none ∧
    logout (logout st now cookie).1 now2 cookie =
      ((logout st now cookie).1, clear_cookie_value) := by
  have key : ∀ sid, parse_cookie cookie "session_id" = some sid → sid ≠ "" →
      lookupSession (logout st now cookie).1 sid = none := by
    intro sid hp hsid
    unfold logout get_session_from_request
    rw [hp]
    cases hlk : lookupSession st sid with
    | none => simp [hsid, get_session, hlk]
    | some s =>
        by_cases hexp : ttl < now - s.last_access
        · simp [hsid, get_session, hlk, hexp, delete_session,
            lookupSession_eraseSession]
        · simp [hsid, get_session, hlk, hexp, delete_session, setSession,
            lookupSession_eraseSession]
  have hresolve :=
    get_session_from_request_of_lookup_none (logout st now cookie).1 now2
      cookie key
  refine ⟨rfl, key, by rw [hresolve], ?_⟩
  generalize hG : (logout st now cookie).1 = st1 at hresolve ⊢
  simp [logout, hresolve]

/-- Witness for C9 on `fix_store` with the cookie naming `tokA`: logout
purges the entry, emits the clearing cookie, a subsequent resolve is absent,
and a second logout is a safe no-op. -/
theorem logout_spec_witness :
    (logout fix_store 2000 "session_id=tokA").2 = clear_cookie_value ∧
    lookupSession (logout fix_store 2000 "session_id=tokA").1 "tokA" = none ∧
    (get_session_from_request (logout fix_store 2000 "session_id=tokA").1
        2500 "session_id=tokA").1 = none ∧
    logout (logout fix_store 2000 "session_id=tokA").1 2500
        "session_id=tokA" =
      ((logout fix_store 2000 "session_id=tokA").1, clear_cookie_value) := by
  have h := logout_spec fix_store 2000 2500 "session_id=tokA"
  exact ⟨h.1, h.2.1 "tokA" (by decide) (by decide), h.2.2.1, h.2.2.2⟩

theorem verify_user_some (env : Env) (username password : String) (u : User)
    (h : verify_user env username password = some u) :
    u ∈ env.users ∧ u.enabled = true ∧
    env.verify_password password u.password_hash = true ∧
    u.username = username := by
  unfold verify_user at h
  cases hf : find_user env.users username with
  | none => rw [hf] at h; exact absurd h (by simp)
  | some w =>
      rw [hf] at h
      by_cases he : w.enabled = false
      · simp [he] at h
      · by_cases hv : env.verify_password password w.password_hash = false
        · simp [he, hv] at h
        · simp [he, hv] at h
          subst h
          unfold find_user at hf
          refine ⟨List.mem_of_find?_eq_some hf,
            by simpa using he, by simpa using hv, ?_⟩
          have := List.find?_some hf
          simpa using this

/-- C3: `WebAuth.verify_credentials` returns the account-derived identity
when the credential store holds an enabled account with that username whose
password verifies; otherwise, when the legacy shared credential is
configured and matched exactly, the synthetic admin identity with
`user_id = 0`; otherwise absent. -/
theorem verify_credentials_spec (env : Env) (username password : String) :
    (∀ u, find_user env.users username = some u → u.enabled = true →
      env.verify_password password u.password_hash = true →
      verify_credentials env username password =
        some { user_id := u.id, username := username,
               is_admin := u.is_admin }) ∧
    (verify_user env username password = none → legacy_enabled env = true →
      username = env.webui_username → password = env.webui_password →
      verify_credentials env username password =
        some { user_id := 0, username := username, is_admin := true }) ∧
    (verify_user env username password = none →
      (legacy_enabled env = false ∨
        ¬(username = env.webui_username ∧ password = env.webui_password)) →
      verify_credentials env username password = none) := by
  refine ⟨?_, ?_, ?_⟩
  · intro u hf he hv
    have huser : u.username = username := by
      have := List.find?_some (by simpa [find_user] using hf)
      simpa using this
    have hvu : verify_user env username password = some u := by
      simp [verify_user, hf, he, hv]
    simp [verify_credentials, hvu, huser]
  · intro hvu hleg hu hp
    subst hu
    subst hp
    simp [verify_credentials, hvu, hleg]
  · intro hvu hfail
    rcases hfail with hleg | hne
    · simp [verify_credentials, hvu, hleg]
    · by_cases hleg : legacy_enabled env = true
      · have hcond : (username = env.webui_username ∧
            password = env.webui_password) = False := by
          simp [hne]
        simp [verify_credentials, hvu, hleg, hcond]
      · simp [verify_credentials, hvu, Bool.eq_false_iff.mpr hleg]

/-- Witness for C3: alice authenticates against the account store in
`env_multi`; the legacy pair authenticates in `env_legacy` as the synthetic
admin; a wrong password and an unknown user resolve to absent. -/
theorem verify_credentials_spec_witness :
    verify_credentials env_multi "alice" "pw1" =
      some { user_id := 1, username := "alice", is_admin := false } ∧
    verify_credentials env_legacy "admin" "secret" =
      some { user_id := 0, username := "admin", is_admin := true } ∧
    verify_credentials env_legacy "admin" "wrong" = none ∧
    verify_credentials env_multi "mallory" "pw1" = none := by
  refine ⟨?_, ?_, ?_, ?_⟩
  · exact (verify_credentials_spec env_multi "alice" "pw1").1 alice
      (by decide) (by decide) (by decide)
  · exact (verify_credentials_spec env_legacy "admin" "secret").2.1
      (by decide) (by decide) rfl rfl
  · exact (verify_credentials_spec env_legacy "admin" "wrong").2.2
      (by decide) (Or.inr (by decide))
  · exact (verify_credentials_spec env_multi "mallory" "pw1").2.2
      (by decide) (Or.inl (by decide))

/-- C1: `WebAuth.check_auth` resolves in this order: guest identity when
authentication is disabled; the session-derived identity when the cookie
names a live session; otherwise Basic-Auth parse and verify, which on
success creates a session under the fresh token and emits the Set-Cookie;
in every remaining case it returns absent with no session created and no
cookie emitted. -/
theorem check_auth_resolution_order (env : Env) (st : Store) (now : Nat)
    (tok : String) (req : Request) :
    (enabled env = false →
      check_auth env st now tok req =
        { identity := some
            { user_id := 0, username := "guest", is_admin := false },
          store := st, set_cookie := none }) ∧
    (enabled env = true →
      (∀ s, (get_session_from_request st now req.cookie).1 = some s →
        check_auth env st now tok req =
          { identity := some
              { user_id := s.user_id, username := s.username,
                is_admin := s.is_admin },
            store := (get_session_from_request st now req.cookie).2,
            set_cookie := none }) ∧
      ((get_session_from_request st now req.cookie).1 = none →
        (∀ u p i, parse_basic_auth env req.authorization = some (u, p) →
          verify_credentials env u p = some i →
          check_auth env st now tok req =
            { identity := some i,
              store := create_session
                (get_session_from_request st now req.cookie).2 tok
                i.user_id i.username i.is_admin now,
              set_cookie := some (set_cookie_value tok) }) ∧
        (parse_basic_auth env req.authorization = none →
          check_auth env st now tok req =
            { identity := none,
              store := (get_session_from_request st now req.cookie).2,
              set_cookie := none }) ∧
        (∀ u p, parse_basic_auth env req.authorization = some (u, p) →
          verify_credentials env u p = none →
          check_auth env st now tok req =
            { identity := none,
              store := (get_session_from_request st now req.cookie).2,
              set_cookie := none }))) := by
  refine ⟨?_, fun hen => ⟨?_, fun hsess => ⟨?_, ?_, ?_⟩⟩⟩
  · intro hdis
    simp [check_auth, hdis]
  · intro s hs
    simp [check_auth, hen, hs]
  · intro u p i hpb hvc
    simp [check_auth, hen, hsess, hpb, hvc]
  · intro hpb
    simp [check_auth, hen, hsess, hpb]
  · intro u p hpb hvc
    simp [check_auth, hen, hsess, hpb, hvc]

/-- Witness for C1: in `env_multi`, a live cookie session resolves to the
session identity; with an empty store, valid Basic-Auth promotes to a new
session with a Set-Cookie; no credentials resolve to absent; and with
authentication unconfigured (`env_off`) the guest identity is returned. -/
theorem check_auth_resolution_order_witness :
    check_auth env_multi fix_store 2000 "f" req_cookie =
      { identity := some
          { user_id := 1, username := "alice", is_admin := false },
        store := [("tokA", { fix_session with last_access := 2000 })],
        set_cookie := none } ∧
    check_auth env_multi [] 7 "f" req_basic =
      { identity := some
          { user_id := 1, username := "alice", is_admin := false },
        store := [("f",
          { user_id := 1, username := "alice", is_admin := false,
            created_at := 7, last_access := 7 })],
        set_cookie := some "session_id=f; Path=/; HttpOnly; Max-Age=86400" } ∧
    check_auth env_multi [] 7 "f" req_anon =
      { identity := none, store := [], set_cookie := none } ∧
    check_auth env_off [] 7 "f" req_anon =
      { identity := some
          { user_id := 0, username := "guest", is_admin := false },
        store := [], set_cookie := none } := by
  have h1 := ((check_auth_resolution_order env_multi fix_store 2000 "f"
      req_cookie).2 (by decide)).1 { fix_session with last_access := 2000 }
      (by decide)
  have h2 := (((check_auth_resolution_order env_multi [] 7 "f"
      req_basic).2 (by decide)).2 (by decide)).1 "alice" "pw1"
      { user_id := 1, username := "alice", is_admin := false }
      (by decide) (by decide)
  have h3 := (((check_auth_resolution_order env_multi [] 7 "f"
      req_anon).2 (by decide)).2 (by decide)).2.1 (by decide)
  have h4 := (check_auth_resolution_order env_off [] 7 "f" req_anon).1
      (by decide)
  exact ⟨h1.trans (by decide), h2.trans (by decide), h3.trans (by decide),
    h4⟩

/-- C2: for an unauthenticated GET request to a non-public path with
authentication enabled, `Router.dispatch` answers 401 JSON with a login-url
hint on the fixed API paths (taking precedence over the account-count mode),
else a 302 redirect to `/login` when at least one account (disabled
included) is registered, else a 401 `WWW-Authenticate: Basic` challenge. -/
theorem dispatch_unauthenticated_response (env : Env) (st : Store)
    (now : Nat) (tok : String) (req : Request) (path : String)
    (hpub : path ∉ public_paths_get) (hen : enabled env = true)
    (hid : (check_auth env st now tok req).identity = none) :
    (path ∈ api_paths_json_401 →
      (dispatch env st now tok req path).1 =
        .json 401 false "需要登录" (some "/login")) ∧
    (path ∉ api_paths_json_401 → env.users ≠ [] →
      (dispatch env st now tok req path).1 = .redirect 302 "/login") ∧
    (path ∉ api_paths_json_401 → env.users = [] →
      (dispatch env st now tok req path).1 =
        .challenge 401 basic_challenge_value) := by
  refine ⟨?_, ?_, ?_⟩
  · intro hapi
    simp [dispatch, hpub, hen, hid, hapi]
  · intro hapi hne
    simp [dispatch, hpub, hen, hid, hapi, hne]
  · intro hapi hnil
    simp [dispatch, hpub, hen, hid, hapi, hnil]

/-- Witness for C2 in `env_multi` (one registered account) and `env_legacy`
(zero accounts), with a credential-free request: `/analysis` gets the 401
JSON in both modes, `/` gets the 302 redirect in multi-account mode and the
Basic challenge in legacy mode. -/
theorem dispatch_unauthenticated_response_witness :
    (dispatch env_multi [] 3 "f" req_anon "/analysis").1 =
      .json 401 false "需要登录" (some "/login") ∧
    (dispatch env_legacy [] 3 "f" req_anon "/task").1 =
      .json 401 false "需要登录" (some "/login") ∧
    (dispatch env_multi [] 3 "f" req_anon "/").1 = .redirect 302 "/login" ∧
    (dispatch env_legacy [] 3 "f" req_anon "/").1 =
      .challenge 401 basic_challenge_value := by
  refine ⟨?_, ?_, ?_, ?_⟩
  · exact (dispatch_unauthenticated_response env_multi [] 3 "f" req_anon
      "/analysis" (by decide) (by decide) (by decide)).1 (by decide)
  · exact (dispatch_unauthenticated_response env_legacy [] 3 "f" req_anon
      "/task" (by decide) (by decide) (by decide)).1 (by decide)
  · exact (dispatch_unauthenticated_response env_multi [] 3 "f" req_anon
      "/" (by decide) (by decide) (by decide)).2.1 (by decide) (by decide)
  · exact (dispatch_unauthenticated_response env_legacy [] 3 "f" req_anon
      "/" (by decide) (by decide) (by decide)).2.2 (by decide) rfl

/-- C5: when authentication resolves to an identity with `is_admin = false`,
the admin-only handlers (`GET /admin/users`, `POST /api/admin/users`)
respond 403 with the structured JSON error; and `_require_admin` succeeds
only on the exact identity `check_auth` resolved, with `is_admin = true`, so
the admin check runs strictly after authentication and never downgrades the
caller. -/
theorem admin_gate_forbidden (env : Env) (st : Store) (now : Nat)
    (tok : String) (req : Request) :
    (∀ i, (check_auth env st now tok req).identity = some i →
      i.is_admin = false →
      (handle_user_manage env st now tok req).1 =
        .json 403 false "需要管理员权限" none ∧
      (handle_create_user env st now tok req).1 =
        .json 403 false "需要管理员权限" none) ∧
    (∀ i, (require_admin env st now tok req).1 = some i →
      (check_auth env st now tok req).identity = some i ∧
      i.is_admin = true) := by
  constructor
  · intro i hid hadm
    constructor
    · simp [handle_user_manage, require_admin, hid, hadm]
    · simp [handle_create_user, require_admin, hid, hadm]
  · intro i hreq
    cases hid : (check_auth env st now tok req).identity with
    | none => simp [require_admin, hid] at hreq
    | some j =>
        by_cases hadm : j.is_admin
        · simp [require_admin, hid, hadm] at hreq
          subst hreq
          exact ⟨rfl, hadm⟩
        · simp [require_admin, hid, hadm] at hreq

/-- Witness for C5: alice (authenticated via her session, non-admin)
receives the 403 JSON from both admin-only handlers. -/
theorem admin_gate_forbidden_witness :
    (check_auth env_multi fix_store 2000 "f" req_cookie).identity =
      some { user_id := 1, username := "alice", is_admin := false } ∧
    (handle_user_manage env_multi fix_store 2000 "f" req_cookie).1 =
      .json 403 false "需要管理员权限" none ∧
    (handle_create_user env_multi fix_store 2000 "f" req_cookie).1 =
      .json 403 false "需要管理员权限" none := by
  have h := (admin_gate_forbidden env_multi fix_store 2000 "f"
      req_cookie).1 { user_id := 1, username := "alice", is_admin := false }
      (by decide) rfl
  exact ⟨by decide, h.1, h.2⟩

/-- C6: `Router.dispatch_post` hands any path starting with `/bot/` to the
bot-webhook dispatcher before the public-path allowlist and before any Auth
Gate invocation: the outcome is the webhook dispatch (or its 404 for a
malformed bot path), it is identical for every environment, store and
request (so unauthenticated callers reach it even with authentication
enabled), and such paths are never in the POST allowlist. -/
theorem bot_webhook_precedence (env env2 : Env) (st st2 : Store)
    (now now2 : Nat) (tok tok2 : String) (req req2 : Request) (path : String)
    (h : ("/bot/".toList.isPrefixOf path.toList) = true) :
    dispatch_post env st now tok req path =
      (match extract_platform path with
       | some p => (.botWebhook p, st)
       | none => (.notFound, st)) ∧
    (dispatch_post env st now tok req path).1 =
      (dispatch_post env2 st2 now2 tok2 req2 path).1 ∧
    path ∉ public_paths_post := by
  have hbody : ∀ (e : Env) (s : Store) (n : Nat) (t : String) (r : Request),
      dispatch_post e s n t r path =
        (match extract_platform path with
         | some p => (.botWebhook p, s)
         | none => (.notFound, s)) := by
    intro e s n t r
    simp only [dispatch_post]
    rw [h]
    simp
  refine ⟨hbody env st now tok req, ?_, ?_⟩
  · rw [hbody env st now tok req, hbody env2 st2 now2 tok2 req2]
    cases extract_platform path <;> simp
  · intro hmem
    simp [public_paths_post] at hmem
    rcases hmem with h1 | h1 | h1 <;> (subst h1; exact absurd h (by decide))

/-- Witness for C6: `/bot/feishu` resolves to the feishu webhook dispatch in
a multi-account environment with no credentials supplied, agrees with the
legacy environment, and is not on the allowlist. -/
theorem bot_webhook_precedence_witness :
    dispatch_post env_multi [] 3 "f" req_anon "/bot/feishu" =
      (.botWebhook "feishu", []) ∧
    (dispatch_post env_multi [] 3 "f" req_anon "/bot/feishu").1 =
      (dispatch_post env_legacy fix_store 9 "g" req_basic "/bot/feishu").1 ∧
    "/bot/feishu" ∉ public_paths_post := by
  have h := bot_webhook_precedence env_multi env_legacy [] fix_store 3 9
      "f" "g" req_anon req_basic "/bot/feishu" (by decide)
  exact ⟨h.1.trans (by decide), h.2.1, h.2.2⟩

theorem get_session_from_request_nil (now : Nat) (cookie : String) :
    get_session_from_request [] now cookie = (none, []) := by
  unfold get_session_from_request
  cases hp : parse_cookie cookie "session_id" with
  | none => rfl
  | some sid =>
      by_cases hsid : sid = "" <;> simp [hsid, get_session, lookupSession]

/-- C7: both the `enabled` switch and the dispatch redirect-mode switch
count disabled accounts while `verify_user` rejects them, so with a
nonempty, all-disabled account table and no legacy credential:
authentication is enforced, no (username, password) pair resolves to an
identity, and an unauthenticated GET to a non-public non-API path (here
against an empty session store, where every request is unauthenticated)
receives the 302 redirect to `/login`. -/
theorem all_disabled_accounts_mode (env : Env) (now : Nat) (tok : String)
    (req : Request) (path : String)
    (hne : env.users ≠ [])
    (hdis : ∀ u ∈ env.users, u.enabled = false)
    (hleg : env.webui_username = "" ∨ env.webui_password = "") :
    enabled env = true ∧
    (∀ username password,
      verify_credentials env username password = none) ∧
    (path ∉ public_paths_get → path ∉ api_paths_json_401 →
      (dispatch env [] now tok req path).1 = .redirect 302 "/login") := by
  have hlegf : legacy_enabled env = false := by
    rcases hleg with h | h <;> simp [legacy_enabled, h]
  have hen : enabled env = true := by
    simp [enabled, List.isEmpty_iff, hne]
  have hvc : ∀ username password,
      verify_credentials env username password = none := by
    intro username password
    cases hvu : verify_user env username password with
    | some u =>
        have hm := verify_user_some env username password u hvu
        have := hdis u hm.1
        rw [hm.2.1] at this
        exact absurd this (by decide)
    | none => simp [verify_credentials, hvu, hlegf]
  refine ⟨hen, hvc, ?_⟩
  intro hpub hapi
  have hid : (check_auth env [] now tok req).identity = none := by
    rw [check_auth]
    simp only [hen, get_session_from_request_nil]
    cases hpb : parse_basic_auth env req.authorization with
    | none => simp
    | some up => simp [hvc up.1 up.2]
  simp [dispatch, hpub, hen, hid, hapi, hne]

/-- Witness for C7 on `env_disabled` (a single disabled admin account whose
password check accepts everything, no legacy credential): authentication is
enforced, bob cannot authenticate even with an accepted password, and an
unauthenticated GET to `/` is redirected to the login page. -/
theorem all_disabled_accounts_mode_witness :
    enabled env_disabled = true ∧
    verify_credentials env_disabled "bob" "anypassword" = none ∧
    (dispatch env_disabled [] 4 "f" req_anon "/").1 =
      .redirect 302 "/login" := by
  have h := all_disabled_accounts_mode env_disabled 4 "f" req_anon "/"
      (by decide) (by decide) (Or.inl rfl)
  exact ⟨h.1, h.2.1 "bob" "anypassword", h.2.2 (by decide) (by decide)⟩

end DSA
